import Mathlib

/-!
Shallow embedding of the FilmBuffTest-Automation timeline composition core
(`src/main.py`), the OMDb poster client (`src/MoviePosterFinder/OMDBClient.py`)
and the TMDB headshot client (`src/clients/TMDBClient.py`).

Modelling conventions:
* Time and geometry are exact rationals; frame dimensions are integers as in
  the manifest.  Python float literals `1.5`/`4.0` become the rationals
  `3/2`/`4`.  Python `//` (floor division) on integers becomes `Int.fdiv`.
* The manifest is a JSON-like value; a parsed manifest is an ordered list of
  key/value pairs, mirroring Python `dict` insertion-order iteration.
* Filesystem and network effects are oracles collected in a `World` record:
  `fileExists` models `os.path.exists`, `imageW`/`imageH` the dimensions of
  an image file, `audioDuration` the measured duration of an audio asset,
  `omdbByTitle`/`omdbById` the OMDb poster lookup (`none` models any failure:
  `Response == "False"`, poster `N/A`, or a network exception),
  `tmdbProfile` the TMDB person search (`none` models "actor not found",
  "no headshot", or a network exception) and `tts` the Eleven Labs
  synthesizer (`none` models a synthesis failure caught by the caller).
* A raised Python exception is `Except.error msg`.  Error messages keep the
  leading words of the source's messages but drop interpolated values.
* `resource_path` is modelled as the identity on relative paths (the
  PyInstaller base-dir indirection does not change which path is which).
* Rendering concerns that never influence the timeline (fonts, colors, the
  looping background video, pixel encoding) are omitted: the background
  video path is still resolved exactly as in the source, because the lookup
  `data["background_video"]` can raise `KeyError`, but it is not threaded
  into the builders, whose output is duration/layout data only.
* Network downloads are paired with a request counter so that cache-hit
  behaviour ("no second fetch") is observable.
-/

/-- JSON-like manifest values, restricted to what the interpreter inspects. -/
inductive JVal where
  | nullv
  | bool (b : Bool)
  | num (n : Int)
  | str (s : String)
  | arr (xs : List JVal)
  | obj (fields : List (String × JVal))

/-- Key lookup in an ordered JSON object (Python `dict` indexing / `in`). -/
def jlookup : List (String × JVal) → String → Option JVal
  | [], _ => none
  | (k, v) :: rest, key => if k = key then some v else jlookup rest key

/-- Python truthiness of a JSON value (`if not x`). -/
def jTruthy : JVal → Bool
  | .nullv => false
  | .bool b => b
  | .num n => n != 0
  | .str s => s != ""
  | .arr xs => !xs.isEmpty
  | .obj fs => !fs.isEmpty

/-- A JSON value read where the code expects a string (`hint["caption"]`). -/
def jstr : JVal → String
  | .str s => s
  | _ => ""

/-- A JSON value that is either a string or `None` (`data["background_video"]`). -/
def jstrOrNull : JVal → Option String
  | .str s => some s
  | _ => none

/-- Substring containment on character lists (Python's `in` on strings). -/
def listContainsSub (pat : List Char) : List Char → Bool
  | [] => pat.isEmpty
  | c :: cs => pat.isPrefixOf (c :: cs) || listContainsSub pat cs

/-- `"hint" in key.lower()` — the manifest interpreter's hint-entry test. -/
def containsHint (key : String) : Bool :=
  listContainsSub "hint".toList (key.toList.map Char.toLower)

/-- `title.lower().replace(" ", "_").replace(":", "").replace("-", "_")`. -/
def normalizeTitle (title : String) : String :=
  ((title.toLower.replace " " "_").replace ":" "").replace "-" "_"

/-- Oracles for the filesystem, media probing and the network collaborators. -/
structure World where
  fileExists : String → Bool
  imageW : String → ℚ
  imageH : String → ℚ
  audioDuration : String → ℚ
  omdbByTitle : String → Option String → Option String
  omdbById : String → Option String
  tmdbProfile : String → Option String
  tts : String → Option String
  elevenLabsKey : Bool
  elevenLabsInit : Bool

/-- `OMDBClient.extract_imdb_id`: first match of the regex `tt\d+` in the URL.
`imdbScan` advances one character at a time, exactly like a regex search. -/
def imdbScan : List Char → Option String
  | [] => none
  | c :: cs =>
    match c, cs with
    | 't', 't' :: d :: rest =>
      if d.isDigit then
        some (String.mk ('t' :: 't' :: d :: rest.takeWhile Char.isDigit))
      else imdbScan cs
    | _, _ => imdbScan cs

def extract_imdb_id (imdb_url : String) : Option String :=
  if imdb_url = "" then none
  else imdbScan imdb_url.toList

/-- `OMDBClient.download_movie_poster_by_imdb_id`.  The second component
counts network requests (metadata query, then image download). -/
def download_movie_poster_by_imdb_id (w : World) (imdb_id save_path : String) :
    Except String String × Nat :=
  if w.fileExists save_path then (.ok save_path, 0)
  else
    match w.omdbById imdb_id with
    | none => (.error "Movie not found or no poster available for IMDB ID", 1)
    | some _poster_url => (.ok save_path, 2)

/-- The title/year OMDb query — the tail of `download_movie_poster`, which the
source reaches either directly or by falling through from a bad IMDB URL. -/
def omdb_title_search (w : World) (movie_title save_path : String)
    (release_year : Option String) : Except String String × Nat :=
  match w.omdbByTitle movie_title release_year with
  | none => (.error "Movie not found or no poster available", 1)
  | some _poster_url => (.ok save_path, 2)

/-- `OMDBClient.download_movie_poster`.  The cached-file check comes first;
an empty `movie_title` models a falsy (absent) title argument. -/
def download_movie_poster (w : World) (movie_title save_path : String)
    (release_year imdb_url : Option String) : Except String String × Nat :=
  if w.fileExists save_path then (.ok save_path, 0)
  else
    match imdb_url with
    | some url =>
      match extract_imdb_id url with
      | some imdb_id => download_movie_poster_by_imdb_id w imdb_id save_path
      | none =>
        if movie_title = "" then
          (.error "Could not extract IMDB ID from URL and no movie title provided", 0)
        else omdb_title_search w movie_title save_path release_year
    | none =>
      if movie_title = "" then
        (.error "Either movie_title or a valid imdb_url must be provided", 0)
      else omdb_title_search w movie_title save_path release_year

/-- `TMDBClient.download_actor_headshot`, with the same cache-first shape. -/
def download_actor_headshot (w : World) (actor_name save_path : String) :
    Except String String × Nat :=
  if w.fileExists save_path then (.ok save_path, 0)
  else
    match w.tmdbProfile actor_name with
    | none => (.error "Actor not found or no headshot available", 1)
    | some _profile_path => (.ok save_path, 2)

/-- `generate_voice_over`: returns `none` when the client is absent, the text
is blank, or synthesis fails (the source catches the exception). -/
def generate_voice_over (w : World) (text : String) (eleven_labs_client : Bool) :
    Option String :=
  if !eleven_labs_client then none
  else if text.trim = "" then none
  else
    let clean_text := ((text.replace "\n" " ").replace "\r" " ").trim
    if clean_text = "" then none else w.tts clean_text

/-- `make_transition_clip`'s captured geometry: fullscreen start rectangle and
grid-cell end rectangle (positions are top-left anchors). -/
structure TransitionParams where
  startW : ℚ
  startH : ℚ
  startX : ℚ
  startY : ℚ
  endW : ℚ
  endH : ℚ
  endX : ℚ
  endY : ℚ
deriving DecidableEq, Repr

/-- `progress = min(t / 1.5, 1.0)` followed by the smoothstep ease
`3*progress**2 - 2*progress**3` (duplicated verbatim inside both
`resize_func` and `position_func` in the source). -/
def easeProgress (t : ℚ) : ℚ :=
  let progress := min (t / 1.5) 1
  3 * progress ^ 2 - 2 * progress ^ 3

/-- The interpolated width `w = start_w + (end_w - start_w) * progress`. -/
def interpW (tp : TransitionParams) (t : ℚ) : ℚ :=
  tp.startW + (tp.endW - tp.startW) * easeProgress t

/-- The interpolated height `h = start_h + (end_h - start_h) * progress`. -/
def interpH (tp : TransitionParams) (t : ℚ) : ℚ :=
  tp.startH + (tp.endH - tp.startH) * easeProgress t

/-- `resize_func`: uniform scale `min(w/original_w, h/original_h)`. -/
def resize_func (original_w original_h : ℚ) (tp : TransitionParams) (t : ℚ) : ℚ :=
  min (interpW tp t / original_w) (interpH tp t / original_h)

/-- `position_func`: eased linear interpolation of the top-left anchor. -/
def position_func (tp : TransitionParams) (t : ℚ) : ℚ × ℚ :=
  (tp.startX + (tp.endX - tp.startX) * easeProgress t,
   tp.startY + (tp.endY - tp.startY) * easeProgress t)

/-- Fullscreen cover-fit: resize to frame height, and if the result is
narrower than the frame, resize to frame width instead. -/
def fullscreenSize (original_w original_h : ℚ) (vw vh : Int) : ℚ × ℚ :=
  let w := original_w * ((vh : ℚ) / original_h)
  if w < (vw : ℚ) then ((vw : ℚ), original_h * ((vw : ℚ) / original_w))
  else (w, (vh : ℚ))

/-- Grid cells: `x = 1 * cell_width`, `y = row * cell_height`, rows 0..2,
where `cell_width = video_width // 3` and `cell_height = video_height // 3`. -/
def gridPositions (vw vh : Int) : List (Int × Int) :=
  (List.range 3).map (fun row => (1 * Int.fdiv vw 3, (row : Int) * Int.fdiv vh 3))

/-- The transition geometry built for one movie image: fullscreen start
rectangle, floor-centered start anchor (`(video_width - w) // 2`), and the
grid cell `gp` as the end rectangle. -/
def transitionParams (original_w original_h : ℚ) (vw vh : Int) (gp : Int × Int) :
    TransitionParams :=
  let fs := fullscreenSize original_w original_h vw vh
  { startW := fs.1
    startH := fs.2
    startX := ((⌊((vw : ℚ) - fs.1) / 2⌋ : Int) : ℚ)
    startY := ((⌊((vh : ℚ) - fs.2) / 2⌋ : Int) : ℚ)
    endW := ((Int.fdiv vw 3 : Int) : ℚ)
    endH := ((Int.fdiv vh 3 : Int) : ℚ)
    endX := ((gp.1 : Int) : ℚ)
    endY := ((gp.2 : Int) : ℚ) }

/-- One timed visual element inside a reveal segment.  Starts are relative to
the segment's own start, as in the source's `CompositeVideoClip` input. -/
inductive RevealElem where
  | bg (duration : ℚ)
  | titleSub (text : String) (videoDuration : ℚ) (audioDuration : Option ℚ)
  | fullscreen (poster : String) (start dur w h : ℚ)
  | shrink (poster : String) (start : ℚ) (tp : TransitionParams)
  | pinned (poster : String) (start dur : ℚ) (x y cw ch : Int)
deriving DecidableEq, Repr

/-- What kind of top-level segment a built clip is. -/
inductive SegKind where
  | titleCard (text : String)
  | reveal (caption : String)
  | answerCard (text : String) (headshot : String)
deriving DecidableEq, Repr

/-- A built segment: its kind, its internal timed elements (non-empty only
for reveal segments), its final video duration and, when a voice-over was
attached, its final audio duration. -/
structure Segment where
  kind : SegKind
  elements : List RevealElem
  videoDuration : ℚ
  audioDuration : Option ℚ
deriving DecidableEq, Repr

/-- `create_title_card`: nominal visuals of length `duration`; a voice-over
that measures longer extends the video, a shorter one is set to the video
duration (`voice_audio.with_duration(duration)`). -/
def create_title_card (w : World) (text : String) (duration : ℚ)
    (voice_over_path : Option String) : Segment :=
  let title_card : Segment :=
    { kind := .titleCard text, elements := [], videoDuration := duration,
      audioDuration := none }
  match voice_over_path with
  | none => title_card
  | some p =>
    if w.fileExists p then
      let voice_duration := w.audioDuration p
      if duration < voice_duration then
        { title_card with videoDuration := voice_duration,
                          audioDuration := some voice_duration }
      else
        { title_card with audioDuration := some duration }
    else title_card

/-- `create_answer_clip`: same duration negotiation as `create_title_card`,
plus the actor headshot overlay (recorded in the kind). -/
def create_answer_clip (w : World) (answer_text actor_headshot_path : String)
    (duration : ℚ) (voice_over_path : Option String) : Segment :=
  let answer_clip : Segment :=
    { kind := .answerCard answer_text actor_headshot_path, elements := [],
      videoDuration := duration, audioDuration := none }
  match voice_over_path with
  | none => answer_clip
  | some p =>
    if w.fileExists p then
      let voice_duration := w.audioDuration p
      if duration < voice_duration then
        { answer_clip with videoDuration := voice_duration,
                           audioDuration := some voice_duration }
      else
        { answer_clip with audioDuration := some duration }
    else answer_clip

/-- A movie reference after poster resolution. -/
structure Movie where
  title : String
  poster_path : String
  release_year : Option String
deriving DecidableEq, Repr

/-- `ThreeColumnClip` from the source. -/
structure ThreeColumnClip where
  caption : String
  movies : List Movie
  size : Int × Int

/-- The three placed clips `create_column_animation_clip` emits for movie `i`
at base time `ct` (fullscreen phase, shrink phase, pinned grid copy). -/
def elemsForMovie (w : World) (vw vh cell_width cell_height : Int)
    (grid_positions : List (Int × Int)) (ct : ℚ) (i : Nat) (movie : Movie) :
    List RevealElem :=
  let original_w := w.imageW movie.poster_path
  let original_h := w.imageH movie.poster_path
  let fs := fullscreenSize original_w original_h vw vh
  let gp := grid_positions.getD i (0, 0)
  let tp := transitionParams original_w original_h vw vh gp
  [RevealElem.fullscreen movie.poster_path ct 1.5 fs.1 fs.2,
   RevealElem.shrink movie.poster_path (ct + 1.5) tp] ++
  (if i < 3 then
    [RevealElem.pinned movie.poster_path (ct + 3.0) ((3 - (i : ℚ)) * 3.0 + 3.0)
      gp.1 gp.2 cell_width cell_height]
   else [])

/-- `create_column_animation_clip`.  The `current_time` parameter is shadowed
by the local `current_time = 0` on the line the source resets its cursor
(the internal timeline always restarts at zero). -/
def create_column_animation_clip (w : World) (three_column_clip : ThreeColumnClip)
    (current_time : ℚ) (video_size : Int × Int) (eleven_labs_client : Bool) :
    Except String Segment :=
  if three_column_clip.movies.length ≠ 3 then
    .error "Three column clip must contain an array of exactly 3 movie objects"
  else
    let vw := video_size.1
    let vh := video_size.2
    let cell_width := Int.fdiv vw 3
    let cell_height := Int.fdiv vh 3
    let grid_positions := gridPositions vw vh
    let target_duration : ℚ := 5 + (three_column_clip.movies.length : ℚ) * 4.0
    let current_time : ℚ := 0
    let caption_voice_path :=
      if eleven_labs_client then
        generate_voice_over w three_column_clip.caption eleven_labs_client
      else none
    let title_clip :=
      create_title_card w three_column_clip.caption 5 caption_voice_path
    let current_time := current_time + title_clip.videoDuration
    let step := fun (acc : ℚ × List RevealElem) ((i, movie) : Nat × Movie) =>
      (acc.1 + 4.0,
       acc.2 ++ elemsForMovie w vw vh cell_width cell_height grid_positions acc.1 i movie)
    let folded := three_column_clip.movies.enum.foldl step (current_time, [])
    .ok { kind := .reveal three_column_clip.caption
          elements :=
            RevealElem.bg target_duration ::
            RevealElem.titleSub three_column_clip.caption title_clip.videoDuration
              title_clip.audioDuration ::
            folded.2
          videoDuration := folded.1
          audioDuration := none }

/-- One movie datum from a hint's `movies` array: the entry must be a dict
with a `title` key; a falsy/absent `poster_path` triggers resolution through
the OMDb client, and any resolution failure is caught and replaced by the
placeholder asset path. -/
def parseMovie (w : World) (movie_datum : JVal) : Except String Movie :=
  match movie_datum with
  | .obj fields =>
    match jlookup fields "title" with
    | none =>
      .error "Each movie data entry must be a dictionary with at least a title key"
    | some tv =>
      let title := jstr tv
      let poster_field := jlookup fields "poster_path"
      let release_year := (jlookup fields "release_year").map jstr
      let poster_falsy :=
        match poster_field with
        | none => true
        | some x => !jTruthy x
      let poster_path :=
        if poster_falsy then
          let normalized_title := normalizeTitle title
          let save_path := "assets/" ++ normalized_title ++ ".jpg"
          match (download_movie_poster w title save_path release_year none).1 with
          | .ok p => p
          | .error _ => "input/img/placeholder.jpg"
        else jstr (poster_field.getD .nullv)
      .ok { title := title, poster_path := poster_path,
            release_year := release_year }
  | _ =>
    .error "Each movie data entry must be a dictionary with at least a title key"

/-- All three movie data of a hint, in order, failing on the first bad one. -/
def parseMovies (w : World) : List JVal → Except String (List Movie)
  | [] => .ok []
  | d :: rest =>
    match parseMovie w d with
    | .error e => .error e
    | .ok m =>
      match parseMovies w rest with
      | .error e => .error e
      | .ok ms => .ok (m :: ms)

/-- The body of the hint loop of `create_tiktok_from_json` for one hint value:
shape validation, movie-count validation, poster resolution, reveal build. -/
def processHint (w : World) (eleven_labs_client : Bool) (video_size : Int × Int)
    (current_time : ℚ) (hint : JVal) : Except String Segment :=
  match hint with
  | .obj fields =>
    match jlookup fields "caption", jlookup fields "movies" with
    | some capv, some moviesv =>
      let caption := jstr capv
      match moviesv with
      | .arr movie_data =>
        if movie_data.length = 3 then
          match parseMovies w movie_data with
          | .error e => .error e
          | .ok movies =>
            create_column_animation_clip w
              { caption := caption, movies := movies, size := video_size }
              current_time video_size eleven_labs_client
        else .error "Each caption must have exactly 3 movie data entries"
      | _ => .error "Each caption must have exactly 3 movie data entries"
    | _, _ => .error "Each hint must be a dictionary with caption and movies keys"
  | _ => .error "Each hint must be a dictionary with caption and movies keys"

/-- The `for (key, hint) in data.items()` loop: every entry whose key contains
"hint" (case-insensitively) is processed in iteration order; the cumulative
cursor advances by each built segment's actual duration. -/
def processHints (w : World) (eleven_labs_client : Bool) (video_size : Int × Int) :
    ℚ → List (String × JVal) → Except String (List Segment × ℚ)
  | current_time, [] => .ok ([], current_time)
  | current_time, (key, hint) :: rest =>
    if containsHint key then
      match processHint w eleven_labs_client video_size current_time hint with
      | .error e => .error e
      | .ok seg =>
        match processHints w eleven_labs_client video_size
            (current_time + seg.videoDuration) rest with
        | .error e => .error e
        | .ok (segs, ct) => .ok (seg :: segs, ct)
    else processHints w eleven_labs_client video_size current_time rest

/-- The intro card's on-screen text. -/
def introText : String :=
  "Can you\n guess this\n actor from\n only their\n films?"

/-- The finished program: top-level segments in order plus the final
`current_time` the source stamps on the concatenated video. -/
structure Program where
  segments : List Segment
  total_duration : ℚ
deriving DecidableEq, Repr

/-- `create_tiktok_from_json`: voice-over gating, background lookup, intro
card, hint loop, answer-intro card, headshot resolution (no recovery!),
answer card, background-audio lookup, final concatenation.  `Except.ok`
is produced exactly when the source reaches `write_videofile`. -/
def create_tiktok_from_json (w : World) (data : List (String × JVal))
    (video_size : Int × Int) : Except String Program :=
  let enable_voice_overs := jTruthy ((jlookup data "enable_voice_overs").getD (.bool false))
  let eleven_labs_client := enable_voice_overs && w.elevenLabsKey && w.elevenLabsInit
  match jlookup data "background_video" with
  | none => .error "KeyError: background_video"
  | some bgv =>
    let _background_video_path :=
      match jstrOrNull bgv with
      | none => "assets/background.mp4"
      | some p => if w.fileExists p then p else "assets/background.mp4"
    let intro_voice_path :=
      if eleven_labs_client then
        generate_voice_over w "Can you guess this actor from only their films?"
          eleven_labs_client
      else none
    let title_clip := create_title_card w introText 5 intro_voice_path
    let current_time := title_clip.videoDuration
    match processHints w eleven_labs_client video_size current_time data with
    | .error e => .error e
    | .ok (hint_segments, ct_after_hints) =>
      let answer_intro_voice_path :=
        if eleven_labs_client then
          generate_voice_over w "The answer is" eleven_labs_client
        else none
      let the_answer_is_clip :=
        create_title_card w "The answer is ..." 3 answer_intro_voice_path
      let ct_after_intro2 := ct_after_hints + the_answer_is_clip.videoDuration
      match jlookup data "answer" with
      | none => .error "KeyError: answer"
      | some (.obj answer_fields) =>
        match jlookup answer_fields "caption" with
        | none => .error "KeyError: caption"
        | some capv =>
          let actor_name := jstr capv
          let headshot :=
            match jlookup answer_fields "image_path" with
            | none =>
              let save_path :=
                "assets/" ++ (actor_name.toLower.replace " " "_") ++ ".jpg"
              match (download_actor_headshot w actor_name save_path).1 with
              | .ok _ => Except.ok save_path
              | .error e => Except.error e
            | some ip => Except.ok (jstr ip)
          match headshot with
          | .error e => .error e
          | .ok actor_headshot_path =>
            let actor_voice_path :=
              if eleven_labs_client then
                generate_voice_over w actor_name eleven_labs_client
              else none
            let answer_clip :=
              create_answer_clip w actor_name actor_headshot_path 5 actor_voice_path
            let ct_final := ct_after_intro2 + answer_clip.videoDuration
            match jlookup data "background_audio" with
            | none => .error "KeyError: background_audio"
            | some _ =>
              .ok { segments :=
                      title_clip :: hint_segments ++ [the_answer_is_clip, answer_clip]
                    total_duration := ct_final }
      | some _ => .error "TypeError: answer must be a dictionary"

/-- Absolute start offsets of a segment list under end-to-end concatenation
(`concatenate_videoclips`): segment `k` starts at the sum of the durations of
segments `0..k-1`. -/
def segmentStarts (segs : List Segment) : List ℚ :=
  (segs.foldl
    (fun (acc : List ℚ × ℚ) s => (acc.1 ++ [acc.2], acc.2 + s.videoDuration))
    ([], 0)).1

/-- The grid cells (x, y, width, height) at which a reveal segment pins its
images, in element order. -/
def pinnedCells (s : Segment) : List (Int × Int × Int × Int) :=
  s.elements.filterMap (fun e =>
    match e with
    | .pinned _ _ _ x y cw ch => some (x, y, cw, ch)
    | _ => none)

/-- The poster paths shown fullscreen by a reveal segment, in element order. -/
def revealPosters (s : Segment) : List String :=
  s.elements.filterMap (fun e =>
    match e with
    | .fullscreen p _ _ _ _ => some p
    | _ => none)

/-- Scenario fixture: a movie datum with an explicit title and poster path. -/
def movieObj (tp : String × String) : JVal :=
  .obj [("title", .str tp.1), ("poster_path", .str tp.2)]

/-- Scenario fixture: a hint entry with a caption and three movie data. -/
def hintObj (caption : String) (movies : List (String × String)) : JVal :=
  .obj [("caption", .str caption), ("movies", .arr (movies.map movieObj))]

/-- Test world: every file exists, probes return fixed media properties,
collaborators succeed, voice-overs unavailable. -/
def wFiles : World where
  fileExists := fun _ => true
  imageW := fun _ => 1000
  imageH := fun _ => 1500
  audioDuration := fun _ => 7
  omdbByTitle := fun _ _ => some "poster-url"
  omdbById := fun _ => some "poster-url"
  tmdbProfile := fun _ => some "profile-path"
  tts := fun _ => none
  elevenLabsKey := false
  elevenLabsInit := false

/-- Test world: no file exists and every collaborator fails. -/
def wOffline : World where
  fileExists := fun _ => false
  imageW := fun _ => 1000
  imageH := fun _ => 1500
  audioDuration := fun _ => 7
  omdbByTitle := fun _ _ => none
  omdbById := fun _ => none
  tmdbProfile := fun _ => none
  tts := fun _ => none
  elevenLabsKey := false
  elevenLabsInit := false

/-- C10: the reveal builder's output does not depend on the `current_time`
argument: the source rebinds `current_time = 0` before its first read, so the
internal timeline cursor always restarts at zero and absolute positioning is
entirely the assembler's job. -/
theorem reveal_independent_of_current_time (w : World)
    (three_column_clip : ThreeColumnClip) (ct1 ct2 : ℚ) (video_size : Int × Int)
    (eleven_labs_client : Bool) :
    create_column_animation_clip w three_column_clip ct1 video_size eleven_labs_client =
      create_column_animation_clip w three_column_clip ct2 video_size eleven_labs_client :=
  rfl

/-- C9: when the target save path already exists, both resolvers return that
same path with zero network requests; resolving again under the same
filesystem state repeats the identical result, so cached resolution is
idempotent and never refetches. -/
theorem cached_resolution_idempotent (w : World)
    (movie_title save_path : String) (release_year : Option String)
    (actor_name headshot_path : String)
    (hp : w.fileExists save_path = true) (hh : w.fileExists headshot_path = true) :
    download_movie_poster w movie_title save_path release_year none =
      (Except.ok save_path, 0) ∧
    download_actor_headshot w actor_name headshot_path =
      (Except.ok headshot_path, 0) := by
  constructor
  · simp [download_movie_poster, hp]
  · simp [download_actor_headshot, hh]

theorem cached_resolution_idempotent_witness :
    wFiles.fileExists "assets/heat.jpg" = true ∧
    wFiles.fileExists "assets/al_pacino.jpg" = true ∧
    (download_movie_poster wFiles "Heat" "assets/heat.jpg" none none =
        (Except.ok "assets/heat.jpg", 0) ∧
     download_actor_headshot wFiles "Al Pacino" "assets/al_pacino.jpg" =
        (Except.ok "assets/al_pacino.jpg", 0)) :=
  ⟨rfl, rfl,
   cached_resolution_idempotent wFiles "Heat" "assets/heat.jpg" none
     "Al Pacino" "assets/al_pacino.jpg" rfl rfl⟩

/-- C3: with a voice-over file present on disk, a longer audio extends the
segment's video to the audio duration (audio never truncated), a
shorter-or-equal audio is set to the nominal visual duration, and in both
cases the final audio length equals the final video length — for title cards
and answer cards alike. -/
theorem voiceover_duration_matching (w : World) (text headshot : String)
    (duration : ℚ) (p : String) (hex : w.fileExists p = true) :
    ((duration < w.audioDuration p →
        (create_title_card w text duration (some p)).videoDuration =
          w.audioDuration p) ∧
     (w.audioDuration p ≤ duration →
        (create_title_card w text duration (some p)).audioDuration =
          some duration) ∧
     (create_title_card w text duration (some p)).audioDuration =
       some (create_title_card w text duration (some p)).videoDuration) ∧
    ((duration < w.audioDuration p →
        (create_answer_clip w text headshot duration (some p)).videoDuration =
          w.audioDuration p) ∧
     (w.audioDuration p ≤ duration →
        (create_answer_clip w text headshot duration (some p)).audioDuration =
          some duration) ∧
     (create_answer_clip w text headshot duration (some p)).audioDuration =
       some (create_answer_clip w text headshot duration (some p)).videoDuration) := by
  by_cases h : duration < w.audioDuration p
  · constructor <;>
      refine ⟨fun _ => ?_, fun h' => absurd h' (not_le.mpr h), ?_⟩ <;>
      simp [create_title_card, create_answer_clip, hex, h]
  · constructor <;>
      refine ⟨fun h' => absurd h' h, fun _ => ?_, ?_⟩ <;>
      simp [create_title_card, create_answer_clip, hex, h]

theorem voiceover_duration_matching_witness :
    wFiles.fileExists "assets/voice.mp3" = true ∧
    (((3 : ℚ) < wFiles.audioDuration "assets/voice.mp3" →
        (create_title_card wFiles "Hello" 3 (some "assets/voice.mp3")).videoDuration =
          wFiles.audioDuration "assets/voice.mp3") ∧
     (wFiles.audioDuration "assets/voice.mp3" ≤ (3 : ℚ) →
        (create_title_card wFiles "Hello" 3 (some "assets/voice.mp3")).audioDuration =
          some 3) ∧
     (create_title_card wFiles "Hello" 3 (some "assets/voice.mp3")).audioDuration =
       some (create_title_card wFiles "Hello" 3 (some "assets/voice.mp3")).videoDuration) ∧
    (((3 : ℚ) < wFiles.audioDuration "assets/voice.mp3" →
        (create_answer_clip wFiles "Hello" "assets/actor.jpg" 3
            (some "assets/voice.mp3")).videoDuration =
          wFiles.audioDuration "assets/voice.mp3") ∧
     (wFiles.audioDuration "assets/voice.mp3" ≤ (3 : ℚ) →
        (create_answer_clip wFiles "Hello" "assets/actor.jpg" 3
            (some "assets/voice.mp3")).audioDuration = some 3) ∧
     (create_answer_clip wFiles "Hello" "assets/actor.jpg" 3
          (some "assets/voice.mp3")).audioDuration =
       some (create_answer_clip wFiles "Hello" "assets/actor.jpg" 3
          (some "assets/voice.mp3")).videoDuration) :=
  ⟨rfl, voiceover_duration_matching wFiles "Hello" "assets/actor.jpg" 3
    "assets/voice.mp3" rfl⟩

/-- C4: for a 1080×1920 frame the three grid cells share x = 1080/3 = 360,
have y = 0, 640, 1280 in row order, each cell is 360×640, and in any reveal
segment the i-th image (in input order) is pinned at the i-th cell. -/
theorem grid_cells_for_1080_1920 :
    gridPositions 1080 1920 = [(360, 0), (360, 640), (360, 1280)] ∧
    Int.fdiv 1080 3 = 360 ∧ Int.fdiv 1920 3 = 640 ∧
    ∀ (w : World) (caption : String) (m0 m1 m2 : Movie) (ct : ℚ)
      (eleven_labs_client : Bool),
      ∃ seg,
        create_column_animation_clip w
            { caption := caption, movies := [m0, m1, m2], size := (1080, 1920) }
            ct (1080, 1920) eleven_labs_client = Except.ok seg ∧
        pinnedCells seg =
          [(360, 0, 360, 640), (360, 640, 360, 640), (360, 1280, 360, 640)] := by
  refine ⟨by decide, by decide, by decide, ?_⟩
  intro w caption m0 m1 m2 ct eleven_labs_client
  exact ⟨_, rfl, rfl⟩

/-- C6 (amended): the interpreter accepts a hint's movie entry exactly when
it is a dictionary carrying a `title` key; an entry with only `imdb_url` is
rejected by the shape validation (the interpreter never consults
`imdb_url`, even though the OMDb client itself can resolve by IMDB id). -/
theorem movie_entry_accepted_iff_title (w : World) (v : JVal) :
    (∃ m, parseMovie w v = Except.ok m) ↔
      ∃ fields, v = JVal.obj fields ∧ (jlookup fields "title").isSome = true := by
  cases v with
  | obj fields =>
    cases h : jlookup fields "title" with
    | none => simp [parseMovie, h]
    | some tv => simp [parseMovie, h]
  | nullv => simp [parseMovie]
  | bool b => simp [parseMovie]
  | num n => simp [parseMovie]
  | str s => simp [parseMovie]
  | arr xs => simp [parseMovie]

/-- Manifest whose first hint movie has an `imdb_url` but no `title`. -/
def imdbOnlyManifest : List (String × JVal) :=
  [("background_video", .str "bg.mp4"),
   ("background_audio", .str "audio.mp3"),
   ("answer", .obj [("caption", .str "Some Actor"),
                    ("image_path", .str "actor.jpg")]),
   ("hint1", .obj [("caption", .str "Caption one"),
     ("movies", .arr
       [.obj [("imdb_url", .str "https://www.imdb.com/title/tt0117500/")],
        movieObj ("Movie A", "a.jpg"), movieObj ("Movie B", "b.jpg")])])]

/-- C6 (counterexample): a movie entry bearing only `imdb_url` makes the
whole render job fail validation — it is not accepted. -/
theorem movie_entry_imdb_only_rejected :
    create_tiktok_from_json wFiles imdbOnlyManifest (1080, 1920) =
      Except.error
        "Each movie data entry must be a dictionary with at least a title key" := by
  have h1 : containsHint "background_video" = false := by decide
  have h2 : containsHint "background_audio" = false := by decide
  have h3 : containsHint "answer" = false := by decide
  have h4 : containsHint "hint1" = true := by decide
  simp [create_tiktok_from_json, imdbOnlyManifest, jlookup, jTruthy,
        create_title_card, processHints, processHint, parseMovies, parseMovie,
        h1, h2, h3, h4]

/-- A hint value the interpreter's validation rejects: not a dictionary,
missing `caption` or `movies`, or a `movies` value that is not a list of
exactly 3 entries. -/
def hintMalformed : JVal → Bool
  | .obj fields =>
    match jlookup fields "caption", jlookup fields "movies" with
    | some _, some (.arr ms) => ms.length != 3
    | some _, some _ => true
    | _, _ => true
  | _ => true

lemma processHint_of_malformed (w : World) (eleven_labs_client : Bool)
    (video_size : Int × Int) (ct : ℚ) (v : JVal) (hm : hintMalformed v = true) :
    ∃ e, processHint w eleven_labs_client video_size ct v = Except.error e := by
  cases v with
  | obj fields =>
    simp only [hintMalformed] at hm
    cases hc : jlookup fields "caption" with
    | none =>
      exact ⟨"Each hint must be a dictionary with caption and movies keys",
        by simp [processHint, hc]⟩
    | some cv =>
      cases hmv : jlookup fields "movies" with
      | none =>
        exact ⟨"Each hint must be a dictionary with caption and movies keys",
          by simp [processHint, hc, hmv]⟩
      | some mv =>
        cases mv with
        | arr ms =>
          simp only [hc, hmv, bne_iff_ne, ne_eq] at hm
          exact ⟨"Each caption must have exactly 3 movie data entries",
            by simp [processHint, hc, hmv, hm]⟩
        | nullv =>
          exact ⟨"Each caption must have exactly 3 movie data entries",
            by simp [processHint, hc, hmv]⟩
        | bool b =>
          exact ⟨"Each caption must have exactly 3 movie data entries",
            by simp [processHint, hc, hmv]⟩
        | num n =>
          exact ⟨"Each caption must have exactly 3 movie data entries",
            by simp [processHint, hc, hmv]⟩
        | str s =>
          exact ⟨"Each caption must have exactly 3 movie data entries",
            by simp [processHint, hc, hmv]⟩
        | obj fs =>
          exact ⟨"Each caption must have exactly 3 movie data entries",
            by simp [processHint, hc, hmv]⟩
  | nullv =>
    exact ⟨"Each hint must be a dictionary with caption and movies keys",
      by simp [processHint]⟩
  | bool b =>
    exact ⟨"Each hint must be a dictionary with caption and movies keys",
      by simp [processHint]⟩
  | num n =>
    exact ⟨"Each hint must be a dictionary with caption and movies keys",
      by simp [processHint]⟩
  | str s =>
    exact ⟨"Each hint must be a dictionary with caption and movies keys",
      by simp [processHint]⟩
  | arr xs =>
    exact ⟨"Each hint must be a dictionary with caption and movies keys",
      by simp [processHint]⟩

lemma processHints_of_malformed (w : World) (eleven_labs_client : Bool)
    (video_size : Int × Int) (k : String) (v : JVal)
    (hk : containsHint k = true) (hm : hintMalformed v = true) :
    ∀ (entries : List (String × JVal)) (ct : ℚ), (k, v) ∈ entries →
      ∃ e, processHints w eleven_labs_client video_size ct entries =
        Except.error e := by
  intro entries
  induction entries with
  | nil => intro ct h; simp at h
  | cons head rest ih =>
    intro ct hmem
    rcases List.mem_cons.mp hmem with heq | hmem2
    · obtain ⟨e, he⟩ :=
        processHint_of_malformed w eleven_labs_client video_size ct v hm
      cases head with
      | mk k2 v2 =>
        injection heq with hk1 hv1
        subst hk1
        subst hv1
        exact ⟨e, by simp [processHints, hk, he]⟩
    · cases head with
      | mk k2 v2 =>
        cases hck : containsHint k2 with
        | false =>
          obtain ⟨e, he⟩ := ih ct hmem2
          exact ⟨e, by simp [processHints, hck, he]⟩
        | true =>
          cases hph : processHint w eleven_labs_client video_size ct v2 with
          | error e => exact ⟨e, by simp [processHints, hck, hph]⟩
          | ok seg =>
            obtain ⟨e, he⟩ := ih (ct + seg.videoDuration) hmem2
            exact ⟨e, by simp [processHints, hck, hph, he]⟩

/-- C5: a manifest containing a hint entry that is missing `caption` or
`movies`, or whose `movies` is not a list of exactly 3 entries, makes the
render job fail with a raised error; no program is produced, so nothing
reaches the encoding step. -/
theorem malformed_hint_aborts_job (w : World) (data : List (String × JVal))
    (video_size : Int × Int) (k : String) (v : JVal)
    (hmem : (k, v) ∈ data) (hk : containsHint k = true)
    (hm : hintMalformed v = true) :
    ∃ e, create_tiktok_from_json w data video_size = Except.error e := by
  simp only [create_tiktok_from_json]
  cases hbv : jlookup data "background_video" with
  | none => exact ⟨_, rfl⟩
  | some bgv =>
    obtain ⟨e, he⟩ :=
      processHints_of_malformed w
        (jTruthy ((jlookup data "enable_voice_overs").getD (.bool false)) &&
          w.elevenLabsKey && w.elevenLabsInit)
        video_size k v hk hm data
        ((create_title_card w introText 5
          (if (jTruthy ((jlookup data "enable_voice_overs").getD (.bool false)) &&
               w.elevenLabsKey && w.elevenLabsInit) then
            generate_voice_over w "Can you guess this actor from only their films?"
              (jTruthy ((jlookup data "enable_voice_overs").getD (.bool false)) &&
                w.elevenLabsKey && w.elevenLabsInit)
           else none)).videoDuration) hmem
    rw [he]
    exact ⟨e, rfl⟩

/-- Manifest with a hint whose `movies` list has only two entries. -/
def twoMovieManifest : List (String × JVal) :=
  [("background_video", .str "bg.mp4"),
   ("hint1", .obj [("caption", .str "Only two"),
     ("movies", .arr [movieObj ("Movie A", "a.jpg"), movieObj ("Movie B", "b.jpg")])])]

theorem malformed_hint_aborts_job_witness :
    (("hint1",
      JVal.obj [("caption", .str "Only two"),
        ("movies", .arr [movieObj ("Movie A", "a.jpg"), movieObj ("Movie B", "b.jpg")])]) ∈
      twoMovieManifest) ∧
    containsHint "hint1" = true ∧
    hintMalformed
      (JVal.obj [("caption", .str "Only two"),
        ("movies", .arr [movieObj ("Movie A", "a.jpg"), movieObj ("Movie B", "b.jpg")])]) =
      true ∧
    ∃ e, create_tiktok_from_json wFiles twoMovieManifest (1080, 1920) =
      Except.error e :=
  ⟨List.Mem.tail _ (List.Mem.head _), by decide, by decide,
   malformed_hint_aborts_job wFiles twoMovieManifest (1080, 1920) "hint1" _
     (List.Mem.tail _ (List.Mem.head _)) (by decide) (by decide)⟩

/-- C7 (amended): when the answer entry has no explicit `image_path` and the
headshot resolver fails (actor not found, no headshot, or network failure),
the failure is NOT recovered: the interpreter calls the resolver outside any
try/except, the exception propagates, the render job fails and no program is
produced.  (Only poster resolution has a placeholder fallback.) -/
theorem headshot_failure_aborts_job (w : World) (bg ba name : String)
    (hc : w.fileExists ("assets/" ++ (name.toLower.replace " " "_") ++ ".jpg") =
      false)
    (hr : w.tmdbProfile name = none) :
    create_tiktok_from_json w
      [("background_video", .str bg), ("background_audio", .str ba),
       ("answer", .obj [("caption", .str name)])] (1080, 1920) =
      Except.error "Actor not found or no headshot available" := by
  have h1 : containsHint "background_video" = false := by decide
  have h2 : containsHint "background_audio" = false := by decide
  have h3 : containsHint "answer" = false := by decide
  simp [create_tiktok_from_json, jlookup, jTruthy, processHints,
        download_actor_headshot, jstr, h1, h2, h3, hc, hr]

theorem headshot_failure_aborts_job_witness :
    wOffline.fileExists
        ("assets/" ++ ("Jane Roe".toLower.replace " " "_") ++ ".jpg") = false ∧
    wOffline.tmdbProfile "Jane Roe" = none ∧
    create_tiktok_from_json wOffline
      [("background_video", .str "bg.mp4"), ("background_audio", .str "a.mp3"),
       ("answer", .obj [("caption", .str "Jane Roe")])] (1080, 1920) =
      Except.error "Actor not found or no headshot available" :=
  ⟨rfl, rfl,
   headshot_failure_aborts_job wOffline "bg.mp4" "a.mp3" "Jane Roe" rfl rfl⟩

/-- C7 (counterexample): with the headshot resolver failing and no
`image_path`, the render job does NOT complete — it fails with the
propagated resolver error, contrary to the claimed local recovery. -/
theorem headshot_failure_not_recovered_cex :
    create_tiktok_from_json wOffline
      [("background_video", .str "background.mp4"),
       ("background_audio", .str "music.mp3"),
       ("answer", .obj [("caption", .str "John Doe")])] (1080, 1920) =
      Except.error "Actor not found or no headshot available" := by
  have h1 : containsHint "background_video" = false := by decide
  have h2 : containsHint "background_audio" = false := by decide
  have h3 : containsHint "answer" = false := by decide
  simp [create_tiktok_from_json, jlookup, jTruthy, processHints,
        download_actor_headshot, jstr, h1, h2, h3, wOffline]

/-- The reveal segment `create_column_animation_clip` builds for three movies
on a 1080×1920 frame with voice-overs disabled, written out: background for
17 time units, 5-unit caption card, then per movie `i` (base time 5 + 4i)
the fullscreen, shrink and pinned phases. -/
def revealSegment (w : World) (c : String) (m1 m2 m3 : Movie) : Segment where
  kind := .reveal c
  elements :=
    RevealElem.bg 17 ::
    RevealElem.titleSub c 5 none ::
    (([] ++ elemsForMovie w 1080 1920 360 640 (gridPositions 1080 1920) 5 0 m1) ++
      elemsForMovie w 1080 1920 360 640 (gridPositions 1080 1920) 9 1 m2 ++
      elemsForMovie w 1080 1920 360 640 (gridPositions 1080 1920) 13 2 m3)
  videoDuration := 17
  audioDuration := none

lemma reveal_noclient_eq (w : World) (c : String) (m1 m2 m3 : Movie) (ct : ℚ) :
    create_column_animation_clip w
        { caption := c, movies := [m1, m2, m3], size := (1080, 1920) }
        ct (1080, 1920) false = Except.ok (revealSegment w c m1 m2 m3) := by
  have h3 : Int.fdiv 1080 3 = (360 : Int) := by decide
  have h6 : Int.fdiv 1920 3 = (640 : Int) := by decide
  simp only [create_column_animation_clip, revealSegment]
  norm_num [create_title_card, h3, h6, List.enum, List.enumFrom, List.foldl]

lemma parseMovie_with_poster (w : World) (t p : String) (hp : p ≠ "") :
    parseMovie w (movieObj (t, p)) =
      Except.ok { title := t, poster_path := p, release_year := none } := by
  simp [parseMovie, movieObj, jlookup, jTruthy, jstr, hp]

lemma parseMovie_failed_resolution (w : World) (t : String)
    (hc : w.fileExists ("assets/" ++ normalizeTitle t ++ ".jpg") = false)
    (hr : w.omdbByTitle t none = none) :
    parseMovie w (.obj [("title", .str t)]) =
      Except.ok { title := t, poster_path := "input/img/placeholder.jpg",
                  release_year := none } := by
  by_cases ht : t = ""
  · subst ht
    simp [parseMovie, jlookup, jstr, download_movie_poster, hc]
  · simp [parseMovie, jlookup, jstr, download_movie_poster, omdb_title_search,
          hc, hr, ht]

/-- The total program duration of a finished render, if it succeeded. -/
def runTotal (r : Except String Program) : Option ℚ :=
  r.toOption.map Program.total_duration

/-- The top-level segment kinds of a finished render, in order. -/
def runKinds (r : Except String Program) : Option (List SegKind) :=
  r.toOption.map (fun p => p.segments.map Segment.kind)

/-- The top-level segment durations of a finished render, in order. -/
def runDurations (r : Except String Program) : Option (List ℚ) :=
  r.toOption.map (fun p => p.segments.map Segment.videoDuration)

/-- The absolute segment start offsets of a finished render. -/
def runStarts (r : Except String Program) : Option (List ℚ) :=
  r.toOption.map (fun p => segmentStarts p.segments)

/-- The posters shown by the second top-level segment of a finished render. -/
def runPostersOfSecond (r : Except String Program) : Option (List String) :=
  r.toOption.bind (fun p => p.segments[1]?.map revealPosters)

/-- C8: a hint movie whose poster resolution fails (no cached file and the
OMDb lookup raises) is given the placeholder asset path instead of raising;
the reveal segment is built with that placeholder and the render job still
completes with the full program. -/
theorem poster_failure_uses_placeholder (w : World) (t : String)
    (hc : w.fileExists ("assets/" ++ normalizeTitle t ++ ".jpg") = false)
    (hr : w.omdbByTitle t none = none)
    (bg ba ans ansImg c t2 p2 t3 p3 : String)
    (h2 : p2 ≠ "") (h3 : p3 ≠ "") :
    parseMovie w (.obj [("title", .str t)]) =
      Except.ok { title := t, poster_path := "input/img/placeholder.jpg",
                  release_year := none } ∧
    runTotal (create_tiktok_from_json w
      [("background_video", .str bg), ("background_audio", .str ba),
       ("answer", .obj [("caption", .str ans), ("image_path", .str ansImg)]),
       ("hint1", .obj [("caption", .str c),
          ("movies", .arr [.obj [("title", .str t)], movieObj (t2, p2),
                           movieObj (t3, p3)])])] (1080, 1920)) = some 30 ∧
    runKinds (create_tiktok_from_json w
      [("background_video", .str bg), ("background_audio", .str ba),
       ("answer", .obj [("caption", .str ans), ("image_path", .str ansImg)]),
       ("hint1", .obj [("caption", .str c),
          ("movies", .arr [.obj [("title", .str t)], movieObj (t2, p2),
                           movieObj (t3, p3)])])] (1080, 1920)) =
      some [.titleCard introText, .reveal c, .titleCard "The answer is ...",
            .answerCard ans ansImg] ∧
    runPostersOfSecond (create_tiktok_from_json w
      [("background_video", .str bg), ("background_audio", .str ba),
       ("answer", .obj [("caption", .str ans), ("image_path", .str ansImg)]),
       ("hint1", .obj [("caption", .str c),
          ("movies", .arr [.obj [("title", .str t)], movieObj (t2, p2),
                           movieObj (t3, p3)])])] (1080, 1920)) =
      some ["input/img/placeholder.jpg", p2, p3] := by
  have hph := parseMovie_failed_resolution w t hc hr
  have hm2 := parseMovie_with_poster w t2 p2 h2
  have hm3 := parseMovie_with_poster w t3 p3 h3
  have hb1 : containsHint "background_video" = false := by decide
  have hb2 : containsHint "background_audio" = false := by decide
  have hb3 : containsHint "answer" = false := by decide
  have hb4 : containsHint "hint1" = true := by decide
  refine ⟨hph, ?_, ?_, ?_⟩ <;>
    · simp [runTotal, runKinds, runPostersOfSecond, Except.toOption,
            create_tiktok_from_json, jlookup, jTruthy, jstr, processHints,
            processHint, parseMovies, hph, hm2, hm3, reveal_noclient_eq,
            hb1, hb2, hb3, hb4, create_title_card, create_answer_clip,
            revealSegment, revealPosters, elemsForMovie] <;> norm_num

theorem poster_failure_uses_placeholder_witness :
    wOffline.fileExists ("assets/" ++ normalizeTitle "Lost Film" ++ ".jpg") =
      false ∧
    wOffline.omdbByTitle "Lost Film" none = none ∧
    ("a.jpg" : String) ≠ "" ∧ ("b.jpg" : String) ≠ "" ∧
    (parseMovie wOffline (.obj [("title", .str "Lost Film")]) =
      Except.ok { title := "Lost Film",
                  poster_path := "input/img/placeholder.jpg",
                  release_year := none } ∧
     runTotal (create_tiktok_from_json wOffline
      [("background_video", .str "bg.mp4"), ("background_audio", .str "m.mp3"),
       ("answer", .obj [("caption", .str "Some Actor"),
                        ("image_path", .str "actor.jpg")]),
       ("hint1", .obj [("caption", .str "Caption"),
          ("movies", .arr [.obj [("title", .str "Lost Film")],
                           movieObj ("Movie A", "a.jpg"),
                           movieObj ("Movie B", "b.jpg")])])] (1080, 1920)) =
        some 30 ∧
     runKinds (create_tiktok_from_json wOffline
      [("background_video", .str "bg.mp4"), ("background_audio", .str "m.mp3"),
       ("answer", .obj [("caption", .str "Some Actor"),
                        ("image_path", .str "actor.jpg")]),
       ("hint1", .obj [("caption", .str "Caption"),
          ("movies", .arr [.obj [("title", .str "Lost Film")],
                           movieObj ("Movie A", "a.jpg"),
                           movieObj ("Movie B", "b.jpg")])])] (1080, 1920)) =
        some [.titleCard introText, .reveal "Caption",
              .titleCard "The answer is ...",
              .answerCard "Some Actor" "actor.jpg"] ∧
     runPostersOfSecond (create_tiktok_from_json wOffline
      [("background_video", .str "bg.mp4"), ("background_audio", .str "m.mp3"),
       ("answer", .obj [("caption", .str "Some Actor"),
                        ("image_path", .str "actor.jpg")]),
       ("hint1", .obj [("caption", .str "Caption"),
          ("movies", .arr [.obj [("title", .str "Lost Film")],
                           movieObj ("Movie A", "a.jpg"),
                           movieObj ("Movie B", "b.jpg")])])] (1080, 1920)) =
        some ["input/img/placeholder.jpg", "a.jpg", "b.jpg"]) :=
  ⟨rfl, rfl, by decide, by decide,
   poster_failure_uses_placeholder wOffline "Lost Film" rfl rfl
     "bg.mp4" "m.mp3" "Some Actor" "actor.jpg" "Caption"
     "Movie A" "a.jpg" "Movie B" "b.jpg" (by decide) (by decide)⟩

/-- C1: a manifest with three hint entries (each a caption plus exactly three
movies with explicit poster paths), an answer with an explicit image path and
voice-overs disabled renders to a program of total duration
5 + 3·(5+12) + 3 + 5 = 64, with the six top-level segments in order
[intro, hint1, hint2, hint3, answer-intro, answer], each starting where the
previous one ends, the total equalling the sum of the segment durations. -/
theorem end_to_end_scenario_64 (w : World) (k1 k2 k3 : String)
    (hk1 : containsHint k1 = true) (hk2 : containsHint k2 = true)
    (hk3 : containsHint k3 = true)
    (bg ba ans ansImg c1 c2 c3 : String)
    (t11 p11 t12 p12 t13 p13 t21 p21 t22 p22 t23 p23
     t31 p31 t32 p32 t33 p33 : String)
    (h11 : p11 ≠ "") (h12 : p12 ≠ "") (h13 : p13 ≠ "")
    (h21 : p21 ≠ "") (h22 : p22 ≠ "") (h23 : p23 ≠ "")
    (h31 : p31 ≠ "") (h32 : p32 ≠ "") (h33 : p33 ≠ "")
    (data : List (String × JVal))
    (hdata : data =
      [("background_video", .str bg), ("background_audio", .str ba),
       ("enable_voice_overs", .bool false),
       ("answer", .obj [("caption", .str ans), ("image_path", .str ansImg)]),
       (k1, hintObj c1 [(t11, p11), (t12, p12), (t13, p13)]),
       (k2, hintObj c2 [(t21, p21), (t22, p22), (t23, p23)]),
       (k3, hintObj c3 [(t31, p31), (t32, p32), (t33, p33)])]) :
    runTotal (create_tiktok_from_json w data (1080, 1920)) = some 64 ∧
    runKinds (create_tiktok_from_json w data (1080, 1920)) =
      some [.titleCard introText, .reveal c1, .reveal c2, .reveal c3,
            .titleCard "The answer is ...", .answerCard ans ansImg] ∧
    runDurations (create_tiktok_from_json w data (1080, 1920)) =
      some [5, 17, 17, 17, 3, 5] ∧
    runStarts (create_tiktok_from_json w data (1080, 1920)) =
      some [0, 5, 22, 39, 56, 59] ∧
    runTotal (create_tiktok_from_json w data (1080, 1920)) =
      (runDurations (create_tiktok_from_json w data (1080, 1920))).map
        (fun l => l.sum) := by
  subst hdata
  have hm11 := parseMovie_with_poster w t11 p11 h11
  have hm12 := parseMovie_with_poster w t12 p12 h12
  have hm13 := parseMovie_with_poster w t13 p13 h13
  have hm21 := parseMovie_with_poster w t21 p21 h21
  have hm22 := parseMovie_with_poster w t22 p22 h22
  have hm23 := parseMovie_with_poster w t23 p23 h23
  have hm31 := parseMovie_with_poster w t31 p31 h31
  have hm32 := parseMovie_with_poster w t32 p32 h32
  have hm33 := parseMovie_with_poster w t33 p33 h33
  have hb1 : containsHint "background_video" = false := by decide
  have hb2 : containsHint "background_audio" = false := by decide
  have hb3 : containsHint "enable_voice_overs" = false := by decide
  have hb4 : containsHint "answer" = false := by decide
  refine ⟨?_, ?_, ?_, ?_, ?_⟩ <;>
    · simp [runTotal, runKinds, runDurations, runStarts, Except.toOption,
            create_tiktok_from_json, jlookup, jTruthy, jstr, processHints,
            processHint, parseMovies, hintObj, hm11, hm12, hm13, hm21, hm22,
            hm23, hm31, hm32, hm33, hk1, hk2, hk3, hb1, hb2, hb3, hb4,
            reveal_noclient_eq, create_title_card, create_answer_clip,
            revealSegment, segmentStarts] <;> norm_num

/-- The spec's end-to-end scenario manifest, fully concrete. -/
def scenarioManifest : List (String × JVal) :=
  [("background_video", .str "bg.mp4"), ("background_audio", .str "m.mp3"),
   ("enable_voice_overs", .bool false),
   ("answer", .obj [("caption", .str "Some Actor"),
                    ("image_path", .str "actor.jpg")]),
   ("hint1", hintObj "Era" [("M11", "p11.jpg"), ("M12", "p12.jpg"), ("M13", "p13.jpg")]),
   ("hint2", hintObj "Genre" [("M21", "p21.jpg"), ("M22", "p22.jpg"), ("M23", "p23.jpg")]),
   ("hint3", hintObj "Role" [("M31", "p31.jpg"), ("M32", "p32.jpg"), ("M33", "p33.jpg")])]

theorem end_to_end_scenario_64_witness :
    containsHint "hint1" = true ∧ containsHint "hint2" = true ∧
    containsHint "hint3" = true ∧
    (runTotal (create_tiktok_from_json wFiles scenarioManifest (1080, 1920)) =
        some 64 ∧
     runKinds (create_tiktok_from_json wFiles scenarioManifest (1080, 1920)) =
        some [.titleCard introText, .reveal "Era", .reveal "Genre",
              .reveal "Role", .titleCard "The answer is ...",
              .answerCard "Some Actor" "actor.jpg"] ∧
     runDurations (create_tiktok_from_json wFiles scenarioManifest (1080, 1920)) =
        some [5, 17, 17, 17, 3, 5] ∧
     runStarts (create_tiktok_from_json wFiles scenarioManifest (1080, 1920)) =
        some [0, 5, 22, 39, 56, 59] ∧
     runTotal (create_tiktok_from_json wFiles scenarioManifest (1080, 1920)) =
       (runDurations (create_tiktok_from_json wFiles scenarioManifest
          (1080, 1920))).map (fun l => l.sum)) :=
  ⟨by decide, by decide, by decide,
   end_to_end_scenario_64 wFiles "hint1" "hint2" "hint3"
     (by decide) (by decide) (by decide)
     "bg.mp4" "m.mp3" "Some Actor" "actor.jpg" "Era" "Genre" "Role"
     "M11" "p11.jpg" "M12" "p12.jpg" "M13" "p13.jpg"
     "M21" "p21.jpg" "M22" "p22.jpg" "M23" "p23.jpg"
     "M31" "p31.jpg" "M32" "p32.jpg" "M33" "p33.jpg"
     (by decide) (by decide) (by decide) (by decide) (by decide) (by decide)
     (by decide) (by decide) (by decide)
     scenarioManifest rfl⟩

lemma easeProgress_bounds (t : ℚ) (ht : 0 ≤ t) :
    0 ≤ easeProgress t ∧ easeProgress t ≤ 1 := by
  have hp0 : 0 ≤ min (t / 1.5) 1 :=
    le_min (div_nonneg ht (by norm_num)) zero_le_one
  have hp1 : min (t / 1.5) 1 ≤ 1 := min_le_right _ _
  constructor <;> simp only [easeProgress] <;>
    nlinarith [hp0, hp1, sq_nonneg (min (t / 1.5) 1),
      sq_nonneg (1 - min (t / 1.5) 1),
      mul_nonneg (mul_nonneg hp0 hp0) (sub_nonneg.2 hp1)]

lemma easeProgress_mono (t1 t2 : ℚ) (h0 : 0 ≤ t1) (h12 : t1 ≤ t2) :
    easeProgress t1 ≤ easeProgress t2 := by
  have hpq : min (t1 / 1.5) 1 ≤ min (t2 / 1.5) 1 :=
    min_le_min (by gcongr) le_rfl
  have hp0 : 0 ≤ min (t1 / 1.5) 1 :=
    le_min (div_nonneg h0 (by norm_num)) zero_le_one
  have hq0 : 0 ≤ min (t2 / 1.5) 1 := le_trans hp0 hpq
  have hp1 : min (t1 / 1.5) 1 ≤ 1 := min_le_right _ _
  have hq1 : min (t2 / 1.5) 1 ≤ 1 := min_le_right _ _
  simp only [easeProgress]
  nlinarith [mul_nonneg (sub_nonneg.2 hpq) (sub_nonneg.2 hq1),
    mul_nonneg (sub_nonneg.2 hpq) (sub_nonneg.2 hp1),
    mul_nonneg (mul_nonneg (sub_nonneg.2 hpq) (sub_nonneg.2 hq1)) hq0,
    mul_nonneg (mul_nonneg (sub_nonneg.2 hpq) (sub_nonneg.2 hp1)) hp0,
    mul_nonneg (mul_nonneg (sub_nonneg.2 hpq) (sub_nonneg.2 hpq)) hp0,
    sq_nonneg (min (t1 / 1.5) 1 - min (t2 / 1.5) 1)]

lemma easeProgress_zero : easeProgress 0 = 0 := by norm_num [easeProgress]

lemma easeProgress_full : easeProgress 1.5 = 1 := by norm_num [easeProgress]

lemma lerp_bounds (a b e : ℚ) (h0 : 0 ≤ e) (h1 : e ≤ 1) :
    min a b ≤ a + (b - a) * e ∧ a + (b - a) * e ≤ max a b := by
  rcases le_total a b with hab | hab
  · rw [min_eq_left hab, max_eq_right hab]
    constructor <;> nlinarith [mul_nonneg (sub_nonneg.2 hab) h0,
      mul_nonneg (sub_nonneg.2 hab) (sub_nonneg.2 h1)]
  · rw [min_eq_right hab, max_eq_left hab]
    constructor <;> nlinarith [mul_nonneg (sub_nonneg.2 hab) h0,
      mul_nonneg (sub_nonneg.2 hab) (sub_nonneg.2 h1)]

lemma lerp_mono_signed (a b e1 e2 : ℚ) (h : e1 ≤ e2) :
    0 ≤ ((a + (b - a) * e2) - (a + (b - a) * e1)) * (b - a) := by
  have hrw : ((a + (b - a) * e2) - (a + (b - a) * e1)) * (b - a) =
      (b - a) ^ 2 * (e2 - e1) := by ring
  rw [hrw]
  exact mul_nonneg (sq_nonneg _) (sub_nonneg.2 h)

lemma fullscreen_covers (ow oh : ℚ) (vw vh : Int)
    (how : 0 < ow) (hoh : 0 < oh) :
    (vw : ℚ) ≤ (fullscreenSize ow oh vw vh).1 ∧
    (vh : ℚ) ≤ (fullscreenSize ow oh vw vh).2 := by
  simp only [fullscreenSize]
  split_ifs with hb
  · refine ⟨le_refl _, ?_⟩
    rw [mul_div_assoc'] at hb
    have h2 : ow * (vh : ℚ) < (vw : ℚ) * oh := (div_lt_iff hoh).mp hb
    rw [mul_div_assoc']
    rw [le_div_iff how]
    nlinarith
  · exact ⟨not_lt.mp hb, le_refl _⟩

lemma fdiv3_cast_le (v : Int) (hv : 0 ≤ v) :
    ((Int.fdiv v 3 : Int) : ℚ) ≤ (v : ℚ) := by
  obtain ⟨m, rfl⟩ := Int.eq_ofNat_of_zero_le hv
  have h2 : Int.fdiv (m : Int) 3 ≤ (m : Int) := by
    have h1 : Int.fdiv (m : Int) 3 = ((m / 3 : Nat) : Int) := by
      exact_mod_cast (Int.ofNat_fdiv m 3).symm
    rw [h1]
    exact_mod_cast Nat.div_le_self m 3
  exact_mod_cast h2

lemma resize_func_antitone (ow oh : ℚ) (how : 0 < ow) (hoh : 0 < oh)
    (tp : TransitionParams) (hW : tp.endW ≤ tp.startW) (hH : tp.endH ≤ tp.startH)
    (t1 t2 : ℚ) (h0 : 0 ≤ t1) (h12 : t1 ≤ t2) :
    resize_func ow oh tp t2 ≤ resize_func ow oh tp t1 := by
  have he := easeProgress_mono t1 t2 h0 h12
  have hw2 : interpW tp t2 ≤ interpW tp t1 := by
    simp only [interpW]
    nlinarith [mul_nonneg (sub_nonneg.2 he) (sub_nonneg.2 hW)]
  have hh2 : interpH tp t2 ≤ interpH tp t1 := by
    simp only [interpH]
    nlinarith [mul_nonneg (sub_nonneg.2 he) (sub_nonneg.2 hH)]
  exact min_le_min ((div_le_div_right how).mpr hw2)
    ((div_le_div_right hoh).mpr hh2)

lemma displayed_at_zero (ow oh : ℚ) (vw vh : Int) (gp : Int × Int)
    (how : 0 < ow) (hoh : 0 < oh) :
    (ow * resize_func ow oh (transitionParams ow oh vw vh gp) 0,
     oh * resize_func ow oh (transitionParams ow oh vw vh gp) 0) =
      fullscreenSize ow oh vw vh := by
  have hne1 : ow ≠ 0 := ne_of_gt how
  have hne2 : oh ≠ 0 := ne_of_gt hoh
  simp only [resize_func, interpW, interpH, transitionParams, easeProgress_zero,
    mul_zero, add_zero, fullscreenSize]
  split_ifs with hb
  · have hx : oh * ((vw : ℚ) / ow) / oh = (vw : ℚ) / ow :=
      mul_div_cancel_left₀ _ hne2
    rw [hx, min_self, Prod.mk.injEq]
    exact ⟨by field_simp, rfl⟩
  · have hx : ow * ((vh : ℚ) / oh) / ow = (vh : ℚ) / oh :=
      mul_div_cancel_left₀ _ hne1
    rw [hx, min_self, Prod.mk.injEq]
    exact ⟨rfl, by field_simp⟩

/-- C2 (amended): for a shrink-to-grid transition with positive original
image dimensions on a nonnegative frame, the interpolation hits the exact
fullscreen start state at t = 0 (anchor and displayed size), at t = W = 1.5
the anchor is exactly the assigned cell's top-left and the scale is the
largest uniform (aspect-preserving) fit of the image into the cell —
`min(cell_w/orig_w, cell_h/orig_h)`, which equals the cell's exact size only
when aspect ratios agree — and on 0 ≤ t ≤ W every interpolated coordinate
and dimension stays inside the closed interval between its start and end
values and moves monotonically, the displayed scale shrinking monotonically
from the fullscreen fit to the cell fit, with eased progress
e(p) = 3p² − 2p³ of p = min(t/1.5, 1). -/
theorem shrink_transition_envelope (ow oh : ℚ) (vw vh : Int) (gp : Int × Int)
    (how : 0 < ow) (hoh : 0 < oh) (hvw : 0 ≤ vw) (hvh : 0 ≤ vh)
    (tp : TransitionParams) (htp : tp = transitionParams ow oh vw vh gp) :
    position_func tp 0 = (tp.startX, tp.startY) ∧
    (ow * resize_func ow oh tp 0, oh * resize_func ow oh tp 0) =
      fullscreenSize ow oh vw vh ∧
    position_func tp 1.5 = ((gp.1 : ℚ), (gp.2 : ℚ)) ∧
    resize_func ow oh tp 1.5 =
      min (((Int.fdiv vw 3 : Int) : ℚ) / ow) (((Int.fdiv vh 3 : Int) : ℚ) / oh) ∧
    (∀ t : ℚ, 0 ≤ t → t ≤ 1.5 →
      (min tp.startX tp.endX ≤ (position_func tp t).1 ∧
        (position_func tp t).1 ≤ max tp.startX tp.endX) ∧
      (min tp.startY tp.endY ≤ (position_func tp t).2 ∧
        (position_func tp t).2 ≤ max tp.startY tp.endY) ∧
      (min tp.startW tp.endW ≤ interpW tp t ∧
        interpW tp t ≤ max tp.startW tp.endW) ∧
      (min tp.startH tp.endH ≤ interpH tp t ∧
        interpH tp t ≤ max tp.startH tp.endH) ∧
      (resize_func ow oh tp 1.5 ≤ resize_func ow oh tp t ∧
        resize_func ow oh tp t ≤ resize_func ow oh tp 0)) ∧
    (∀ t1 t2 : ℚ, 0 ≤ t1 → t1 ≤ t2 →
      0 ≤ ((position_func tp t2).1 - (position_func tp t1).1) *
            (tp.endX - tp.startX) ∧
      0 ≤ ((position_func tp t2).2 - (position_func tp t1).2) *
            (tp.endY - tp.startY) ∧
      0 ≤ (interpW tp t2 - interpW tp t1) * (tp.endW - tp.startW) ∧
      0 ≤ (interpH tp t2 - interpH tp t1) * (tp.endH - tp.startH) ∧
      resize_func ow oh tp t2 ≤ resize_func ow oh tp t1) := by
  have hW : (transitionParams ow oh vw vh gp).endW ≤
      (transitionParams ow oh vw vh gp).startW := by
    simp only [transitionParams]
    exact le_trans (fdiv3_cast_le vw hvw) (fullscreen_covers ow oh vw vh how hoh).1
  have hH : (transitionParams ow oh vw vh gp).endH ≤
      (transitionParams ow oh vw vh gp).startH := by
    simp only [transitionParams]
    exact le_trans (fdiv3_cast_le vh hvh) (fullscreen_covers ow oh vw vh how hoh).2
  subst htp
  refine ⟨?_, displayed_at_zero ow oh vw vh gp how hoh, ?_, ?_, ?_, ?_⟩
  · simp [position_func, easeProgress_zero]
  · simp only [position_func, easeProgress_full, mul_one, transitionParams]
    rw [Prod.mk.injEq]
    constructor <;> ring
  · simp only [resize_func, interpW, interpH, easeProgress_full, mul_one,
      transitionParams]
    congr 1 <;> ring_nf
  · intro t ht0 ht1
    obtain ⟨he0, he1⟩ := easeProgress_bounds t ht0
    simp only [position_func, interpW, interpH]
    exact ⟨lerp_bounds _ _ _ he0 he1, lerp_bounds _ _ _ he0 he1,
      lerp_bounds _ _ _ he0 he1, lerp_bounds _ _ _ he0 he1,
      resize_func_antitone ow oh how hoh _ hW hH t 1.5 ht0 ht1,
      resize_func_antitone ow oh how hoh _ hW hH 0 t le_rfl ht0⟩
  · intro t1 t2 h0 h12
    have he := easeProgress_mono t1 t2 h0 h12
    simp only [position_func, interpW, interpH]
    exact ⟨lerp_mono_signed _ _ _ _ he, lerp_mono_signed _ _ _ _ he,
      lerp_mono_signed _ _ _ _ he, lerp_mono_signed _ _ _ _ he,
      resize_func_antitone ow oh how hoh _ hW hH t1 t2 h0 h12⟩

/-- The transition geometry of a 1000×1500 poster (a 2:3 aspect ratio) on
the reference 1080×1920 frame, targeting the first grid cell. -/
def tpScenario : TransitionParams :=
  transitionParams 1000 1500 1080 1920 (360, 0)

/-- C2 (counterexample): at t = W the displayed size is NOT the grid cell's
width×height.  For a 1000×1500 poster the displayed size at t = 1.5 is
360×540, while the assigned cell is 360×640: the uniform aspect-preserving
scale `min(360/1000, 640/1500) = 9/25` leaves the image 100 units short of
the cell height. -/
theorem shrink_transition_cell_size_cex :
    (1000 : ℚ) * resize_func 1000 1500 tpScenario 1.5 = 360 ∧
    (1500 : ℚ) * resize_func 1000 1500 tpScenario 1.5 = 540 ∧
    ((Int.fdiv 1920 3 : Int) : ℚ) = 640 ∧
    ¬(((1000 : ℚ) * resize_func 1000 1500 tpScenario 1.5,
       (1500 : ℚ) * resize_func 1000 1500 tpScenario 1.5) =
      (((Int.fdiv 1080 3 : Int) : ℚ), ((Int.fdiv 1920 3 : Int) : ℚ))) := by
  have h1 : Int.fdiv 1080 3 = (360 : Int) := by decide
  have h2 : Int.fdiv 1920 3 = (640 : Int) := by decide
  norm_num [tpScenario, resize_func, interpW, interpH, transitionParams,
    easeProgress, fullscreenSize, min_def, h1, h2]

theorem shrink_transition_envelope_witness :
    (0 : ℚ) < 1000 ∧ (0 : ℚ) < 1500 ∧ (0 : Int) ≤ 1080 ∧ (0 : Int) ≤ 1920 ∧
    (position_func tpScenario 0 = (tpScenario.startX, tpScenario.startY) ∧
     ((1000 : ℚ) * resize_func 1000 1500 tpScenario 0,
      (1500 : ℚ) * resize_func 1000 1500 tpScenario 0) =
       fullscreenSize 1000 1500 1080 1920 ∧
     position_func tpScenario 1.5 = (((360 : Int) : ℚ), ((0 : Int) : ℚ)) ∧
     resize_func 1000 1500 tpScenario 1.5 =
       min (((Int.fdiv 1080 3 : Int) : ℚ) / 1000)
         (((Int.fdiv 1920 3 : Int) : ℚ) / 1500) ∧
     (∀ t : ℚ, 0 ≤ t → t ≤ 1.5 →
       (min tpScenario.startX tpScenario.endX ≤ (position_func tpScenario t).1 ∧
         (position_func tpScenario t).1 ≤ max tpScenario.startX tpScenario.endX) ∧
       (min tpScenario.startY tpScenario.endY ≤ (position_func tpScenario t).2 ∧
         (position_func tpScenario t).2 ≤ max tpScenario.startY tpScenario.endY) ∧
       (min tpScenario.startW tpScenario.endW ≤ interpW tpScenario t ∧
         interpW tpScenario t ≤ max tpScenario.startW tpScenario.endW) ∧
       (min tpScenario.startH tpScenario.endH ≤ interpH tpScenario t ∧
         interpH tpScenario t ≤ max tpScenario.startH tpScenario.endH) ∧
       (resize_func 1000 1500 tpScenario 1.5 ≤ resize_func 1000 1500 tpScenario t ∧
         resize_func 1000 1500 tpScenario t ≤ resize_func 1000 1500 tpScenario 0)) ∧
     (∀ t1 t2 : ℚ, 0 ≤ t1 → t1 ≤ t2 →
       0 ≤ ((position_func tpScenario t2).1 - (position_func tpScenario t1).1) *
             (tpScenario.endX - tpScenario.startX) ∧
       0 ≤ ((position_func tpScenario t2).2 - (position_func tpScenario t1).2) *
             (tpScenario.endY - tpScenario.startY) ∧
       0 ≤ (interpW tpScenario t2 - interpW tpScenario t1) *
             (tpScenario.endW - tpScenario.startW) ∧
       0 ≤ (interpH tpScenario t2 - interpH tpScenario t1) *
             (tpScenario.endH - tpScenario.startH) ∧
       resize_func 1000 1500 tpScenario t2 ≤ resize_func 1000 1500 tpScenario t1)) :=
  ⟨by decide, by decide, by decide, by decide,
   shrink_transition_envelope 1000 1500 1080 1920 (360, 0)
     (by decide) (by decide) (by decide) (by decide) tpScenario rfl⟩
